import Mathlib

/-!
Verification development for the AI-service-assistant backend.

The Python sources are shallowly embedded: Python runtime values are the
inductive type `PyVal`; Python expressions that can raise are modelled in
`Except String`; every network side effect is recorded in a `NetOp` trace and
each context-manager enter/exit in an `Ev` trace.  The embedded functions
follow the corresponding Python functions line by line:

* `getMcpCredentials`, `connectToMcp`, `callTool`
    — `mcp_client_service.py` (`MCPClientService`)
* `getAgentArn`, `getCognitoCredentialsB`, `getFreshToken`, `invokeAgentB`,
  `invokeAgentStreamB`
    — `bedrock_service.py` (`BedrockAgentCoreService`)
* `invokeLocalAgent`, `localAgentMcpHeaders`
    — `local_agent_service.py` (`LocalAgentService`)
* `invokeCloudAgent`, `cloudAgentMcpHeaders`
    — `cloud_agent_service.py` (`CloudAgentService`)

External collaborators (AWS SSM, Secrets Manager, Cognito, the HTTP client,
the MCP transport and the Strands reasoning loop) are oracles supplied as
function-valued fields of `McpWorld` / `AwsWorld` / `AgentEnv`; one value of
such a structure fixes the behaviour of the environment for one call.
-/

namespace AwsBackend

/-- Model of a Python runtime value as used by the services: strings,
ints, booleans, `None`, lists, dicts with string keys, and objects with
named attributes (e.g. the Strands `AgentResult`, MCP `CallToolResult`). -/
inductive PyVal where
  | pstr (s : String)
  | pint (n : Int)
  | pbool (b : Bool)
  | pnone
  | plist (xs : List PyVal)
  | pdict (fields : List (String × PyVal))
  | pobj (cls : String) (attrs : List (String × PyVal))

open PyVal

/-- Association-list lookup used for dict fields and object attributes. -/
def pyLookup : List (String × PyVal) → String → Option PyVal
  | [], _ => none
  | (k, v) :: rest, key => if k = key then some v else pyLookup rest key

mutual
/-- Model of CPython `repr`/`str` on the values above (`str` of a dict or
list is its `repr`; objects print in the default `<Cls object>` style). -/
def pyRepr : PyVal → String
  | .pstr s => "\x27" ++ s ++ "\x27"
  | .pint n => toString n
  | .pbool b => if b then "True" else "False"
  | .pnone => "None"
  | .plist xs => "[" ++ pyReprList xs ++ "]"
  | .pdict fs => "\x7b" ++ pyReprFields fs ++ "\x7d"
  | .pobj cls _ => "<" ++ cls ++ " object>"

def pyReprList : List PyVal → String
  | [] => ""
  | [x] => pyRepr x
  | x :: y :: xs => pyRepr x ++ ", " ++ pyReprList (y :: xs)

def pyReprFields : List (String × PyVal) → String
  | [] => ""
  | [(k, v)] => "\x27" ++ k ++ "\x27: " ++ pyRepr v
  | (k, v) :: y :: xs => "\x27" ++ k ++ "\x27: " ++ pyRepr v ++ ", " ++ pyReprFields (y :: xs)
end

mutual
/-- Model of `json.dumps` on JSON-serialisable values (double quotes,
`true`/`false`/`null`); the sources only serialise plain string/dict data. -/
def jsonDumps : PyVal → String
  | .pstr s => "\x22" ++ s ++ "\x22"
  | .pint n => toString n
  | .pbool b => if b then "true" else "false"
  | .pnone => "null"
  | .plist xs => "[" ++ jsonDumpsList xs ++ "]"
  | .pdict fs => "\x7b" ++ jsonDumpsFields fs ++ "\x7d"
  | .pobj cls _ => "<" ++ cls ++ " object>"

def jsonDumpsList : List PyVal → String
  | [] => ""
  | [x] => jsonDumps x
  | x :: y :: xs => jsonDumps x ++ ", " ++ jsonDumpsList (y :: xs)

def jsonDumpsFields : List (String × PyVal) → String
  | [] => ""
  | [(k, v)] => "\x22" ++ k ++ "\x22: " ++ jsonDumps v
  | (k, v) :: y :: xs => "\x22" ++ k ++ "\x22: " ++ jsonDumps v ++ ", " ++ jsonDumpsFields (y :: xs)
end

/-- Python truthiness (`bool(v)`): empty string/list/dict, `0`, `False`
and `None` are falsy; objects are truthy. -/
def truthy : PyVal → Bool
  | .pstr s => s ≠ ""
  | .pint n => n ≠ 0
  | .pbool b => b
  | .pnone => false
  | .plist xs => ¬ xs.isEmpty
  | .pdict fs => ¬ fs.isEmpty
  | .pobj _ _ => true

/-- Truthiness of an optional Python string parameter (`if not session_id`):
absent (`None`) and the empty string are both falsy. -/
def optTruthy : Option String → Bool
  | none => false
  | some s => s ≠ ""

/-- Truthiness of an optional `PyVal` parameter defaulting to `None`. -/
def pyOptTruthy : Option PyVal → Bool
  | none => false
  | some v => truthy v

/-- `hasattr(v, name)`: only objects carry attributes. -/
def hasattr (v : PyVal) (name : String) : Bool :=
  match v with
  | .pobj _ attrs => (pyLookup attrs name).isSome
  | _ => false

/-- `v.name` attribute access; raises `AttributeError` when absent. -/
def getattrE (v : PyVal) (name : String) : Except String PyVal :=
  match v with
  | .pobj cls attrs =>
      match pyLookup attrs name with
      | some x => .ok x
      | none => .error ("AttributeError: " ++ cls ++ " object has no attribute " ++ name)
  | _ => .error ("AttributeError: object has no attribute " ++ name)

/-- `len(v)`: defined for strings, lists and dicts, `TypeError` otherwise. -/
def pyLen : PyVal → Except String Nat
  | .pstr s => .ok s.length
  | .plist xs => .ok xs.length
  | .pdict fs => .ok fs.length
  | _ => .error "TypeError: object has no len"

/-- `v[i]` with a non-negative integer index: list indexing, or string
indexing (yielding a one-character string); `IndexError` when out of range,
`TypeError` on dicts and other values. -/
def pyIndexNat (v : PyVal) (i : Nat) : Except String PyVal :=
  match v with
  | .plist xs =>
      match xs.get? i with
      | some x => .ok x
      | none => .error "IndexError: list index out of range"
  | .pstr s =>
      match s.toList.get? i with
      | some c => .ok (pstr (String.singleton c))
      | none => .error "IndexError: string index out of range"
  | _ => .error "TypeError: object is not subscriptable"

/-- `v[-1]`: last element of a list, or last character of a string. -/
def pyIndexLast (v : PyVal) : Except String PyVal :=
  match v with
  | .plist xs =>
      match xs.getLast? with
      | some x => .ok x
      | none => .error "IndexError: list index out of range"
  | .pstr s =>
      match s.toList.getLast? with
      | some c => .ok (pstr (String.singleton c))
      | none => .error "IndexError: string index out of range"
  | _ => .error "TypeError: object is not subscriptable"

/-- `v[key]` with a string key: dict lookup raising `KeyError` when the key
is missing, `TypeError` on strings/lists/others. -/
def pySubscript (v : PyVal) (key : String) : Except String PyVal :=
  match v with
  | .pdict fs =>
      match pyLookup fs key with
      | some x => .ok x
      | none => .error ("KeyError: " ++ key)
  | .pstr _ => .error "TypeError: string indices must be integers"
  | _ => .error "TypeError: object is not subscriptable"

/-- `v.get(key, default)` on a parsed-JSON value: works on dicts only
(`AttributeError` otherwise), returning `default` for a missing key. -/
def pyGetD (v : PyVal) (key : String) (dflt : PyVal) : Except String PyVal :=
  match v with
  | .pdict fs => .ok ((pyLookup fs key).getD dflt)
  | _ => .error "AttributeError: object has no attribute get"

/-- `v[:100]` as used in the services' logging f-strings: slicing is
defined for strings and lists and raises `TypeError` on dicts/objects. -/
def pySliceLog : PyVal → Except String PyVal
  | .pstr s => .ok (pstr (s.take 100))
  | .plist xs => .ok (plist (xs.take 100))
  | _ => .error "TypeError: unhashable type slice"

/-- `a or b` on Python values: `a` when truthy, otherwise `b`. -/
def pyOr (a b : PyVal) : PyVal :=
  if truthy a then a else b

/-! ## Traces

Context-manager lifecycle events and network operations.  Session ids:
in `connectToMcp`, 0 is the `streamablehttp_client` transport pair and 1 is
the protocol `ClientSession`; in `invokeLocalAgent` / `invokeCloudAgent`,
0/1/2 are the `udm` / `edge_server` / `ai_service` MCP clients of the
orchestrator's triple `with` block. -/

/-- One lifecycle event of a scoped (`with` / `async with`) resource. -/
inductive Ev where
  | opened (sid : Nat)
  | closed (sid : Nat)
deriving DecidableEq, Repr

/-- Session ids opened during a run, in order. -/
def opensOf (tr : List Ev) : List Nat :=
  tr.filterMap fun e => match e with | .opened n => some n | .closed _ => none

/-- Session ids closed during a run, in order. -/
def closesOf (tr : List Ev) : List Nat :=
  tr.filterMap fun e => match e with | .closed n => some n | .opened _ => none

/-- Every session opened in the trace is closed exactly once: the closes
are exactly the opens in reverse (LIFO teardown of nested scopes) and no
session is opened twice. -/
def closedExactlyOnce (tr : List Ev) : Prop :=
  closesOf tr = (opensOf tr).reverse ∧ (opensOf tr).Nodup

instance (tr : List Ev) : Decidable (closedExactlyOnce tr) := by
  unfold closedExactlyOnce; infer_instance

/-- One outbound network side effect performed by the services. -/
inductive NetOp where
  | ssmGet (name : String)
  | secretGet (name : String)
  | cognitoAuth (clientId username password : PyVal)
  | httpPost (url : String) (headers : List (String × String)) (payload : PyVal)
  | rpcCall (tool : String) (args : List (String × PyVal))

/-! ## Configuration (config.py defaults) -/

/-- `settings.aws_region` default. -/
def aws_region : String := "us-east-1"

/-- `settings.agent_name` default. -/
def agent_name : String := "ai_assistant_agent"

/-! ## MCPClientService (mcp_client_service.py) -/

/-- One entry of `MCPClientService.mcp_servers`; `ssmBase` holds the
`ssm_prefix` field of the source dict. -/
structure ServerConfig where
  name : String
  description : String
  ssmBase : String

/-- The `mcp_servers` configuration table (constructor lines 41-57). -/
def mcp_servers : List (String × ServerConfig) :=
  [("udm", ⟨"UDM_mcp_server", "User subscription and data management", "/mcp_server/udm"⟩),
   ("edge_server", ⟨"edge_server_mcp_server", "Edge infrastructure management", "/mcp_server/edge_server"⟩),
   ("ai_service", ⟨"edge_ai_service_repository_mcp_server", "AI service catalog", "/mcp_server/ai_service"⟩)]

/-- Result of `_get_mcp_credentials`. -/
structure McpCredentials where
  agent_arn : String
  bearer_token : String
deriving DecidableEq, Repr

/-- Environment oracle for `MCPClientService`: SSM parameter store,
Secrets Manager (already through `json.loads`), and the Cognito
`initiate_auth` password grant returning an access token. -/
structure McpWorld where
  ssm : String → Except String String
  secrets : String → Except String PyVal
  cognito : PyVal → PyVal → PyVal → Except String String

/-- `MCPClientService._get_mcp_credentials` (lines 59-114): unknown key
fails before any network step; otherwise agent ARN, Cognito secret and
client id are fetched and a fresh token is obtained via the password
grant.  The second component records the network operations performed. -/
def getMcpCredentials (w : McpWorld) (server_key : String) :
    Except String McpCredentials × List NetOp :=
  match mcp_servers.lookup server_key with
  | none => (.error ("Unknown MCP server: " ++ server_key), [])
  | some cfg =>
    let p := cfg.ssmBase
    match w.ssm (p ++ "/runtime/agent_arn") with
    | .error e => (.error e, [.ssmGet (p ++ "/runtime/agent_arn")])
    | .ok agent_arn =>
      match w.secrets (p.drop 1 ++ "/cognito/credentials") with
      | .error e =>
          (.error e, [.ssmGet (p ++ "/runtime/agent_arn"),
                      .secretGet (p.drop 1 ++ "/cognito/credentials")])
      | .ok cognito_creds =>
        match w.ssm (p ++ "/runtime/client_id") with
        | .error e =>
            (.error e, [.ssmGet (p ++ "/runtime/agent_arn"),
                        .secretGet (p.drop 1 ++ "/cognito/credentials"),
                        .ssmGet (p ++ "/runtime/client_id")])
        | .ok client_id =>
          match pyGetD cognito_creds "username" (pstr "testuser") with
          | .error e =>
              (.error e, [.ssmGet (p ++ "/runtime/agent_arn"),
                          .secretGet (p.drop 1 ++ "/cognito/credentials"),
                          .ssmGet (p ++ "/runtime/client_id")])
          | .ok username =>
            match pyGetD cognito_creds "password" (pstr "MyPassword123!") with
            | .error e =>
                (.error e, [.ssmGet (p ++ "/runtime/agent_arn"),
                            .secretGet (p.drop 1 ++ "/cognito/credentials"),
                            .ssmGet (p ++ "/runtime/client_id")])
            | .ok password =>
              match w.cognito (pstr client_id) username password with
              | .error e =>
                  (.error e, [.ssmGet (p ++ "/runtime/agent_arn"),
                              .secretGet (p.drop 1 ++ "/cognito/credentials"),
                              .ssmGet (p ++ "/runtime/client_id"),
                              .cognitoAuth (pstr client_id) username password])
              | .ok bearer_token =>
                  (.ok ⟨agent_arn, bearer_token⟩,
                   [.ssmGet (p ++ "/runtime/agent_arn"),
                    .secretGet (p.drop 1 ++ "/cognito/credentials"),
                    .ssmGet (p ++ "/runtime/client_id"),
                    .cognitoAuth (pstr client_id) username password])

/-- The MCP runtime URL built in `connect_to_mcp` (lines 136-137). -/
def mcpServerUrl (agent_arn : String) : String :=
  let encoded_arn := (agent_arn.replace ":" "%3A").replace "/" "%2F"
  "https://bedrock-agentcore." ++ aws_region ++ ".amazonaws.com/runtimes/" ++
    encoded_arn ++ "/invocations?qualifier=DEFAULT"

/-- The header dict built in `connect_to_mcp` (lines 139-142): lowercase
`authorization` plus `Content-Type`; no `Accept` header on this path. -/
def connectHeaders (bearer_token : String) : List (String × String) :=
  [("authorization", "Bearer " ++ bearer_token),
   ("Content-Type", "application/json")]

/-- Per-call transport/session oracle for `connect_to_mcp`: outcome of
entering the `streamablehttp_client` transport (given URL and headers),
of entering `ClientSession`, of `session.initialize()`, and of
`session.call_tool` RPCs issued through the ready session. -/
structure SessionWorld where
  transport : String → List (String × String) → Except String Unit
  sessionEnter : Except String Unit
  handshake : Except String Unit
  rpc : String → List (String × PyVal) → Except String PyVal

/-- `MCPClientService.connect_to_mcp` (lines 116-157) run against a body
(the code in the caller's `async with` scope, given as its outcome plus
the network operations it performs).  Credential resolution happens
before anything is opened; the nested `async with` blocks guarantee that
entered scopes are exited in reverse order on every path. -/
def connectToMcp (w : McpWorld) (sw : SessionWorld) (server_key : String)
    (body : Except String PyVal × List NetOp) :
    Except String PyVal × List NetOp × List Ev :=
  match getMcpCredentials w server_key with
  | (.error e, ops) => (.error e, ops, [])
  | (.ok creds, ops) =>
    match sw.transport (mcpServerUrl creds.agent_arn) (connectHeaders creds.bearer_token) with
    | .error e => (.error e, ops, [])
    | .ok _ =>
      match sw.sessionEnter with
      | .error e => (.error e, ops, [.opened 0, .closed 0])
      | .ok _ =>
        match sw.handshake with
        | .error e => (.error e, ops, [.opened 0, .opened 1, .closed 1, .closed 0])
        | .ok _ =>
            (body.1, ops ++ body.2, [.opened 0, .opened 1, .closed 1, .closed 0])

/-- The body `call_tool` runs inside `connect_to_mcp` (lines 187-195):
one `session.call_tool` RPC, then text extraction — first part's `text`
attribute when the result has a non-empty `content`, else `str(result)`. -/
def callToolBody (rpc : String → List (String × PyVal) → Except String PyVal)
    (tool_name : String) (args : List (String × PyVal)) :
    Except String PyVal × List NetOp :=
  (do
    let result ← rpc tool_name args
    if hasattr result "content" then do
      let c ← getattrE result "content"
      let n ← pyLen c
      if n > 0 then do
        let part ← pyIndexNat c 0
        getattrE part "text"
      else .ok (pstr (pyRepr result))
    else .ok (pstr (pyRepr result)),
   [.rpcCall tool_name args])

/-- `MCPClientService.call_tool` (lines 159-199): a `None` argument
mapping becomes the empty dict, then one RPC inside a fresh scoped
session; the outer `try/except` logs and re-raises, leaving outcomes
unchanged. -/
def callTool (w : McpWorld) (sw : SessionWorld) (server_key tool_name : String)
    (arguments : Option (List (String × PyVal))) :
    Except String PyVal × List NetOp × List Ev :=
  let args := arguments.getD []
  connectToMcp w sw server_key (callToolBody sw.rpc tool_name args)

/-! ## BedrockAgentCoreService (bedrock_service.py) -/

/-- Uniform response envelope of all three `invoke_agent` variants: the
dict `{response, session_id, trace, success[, error]}`; `error` is `none`
exactly when the key is absent from the returned dict. -/
structure InvocationResult where
  response : PyVal
  session_id : Option String
  trace : Option PyVal
  success : Bool
  error : Option String

/-- Environment oracle for one `BedrockAgentCoreService` call: the
`uuid.uuid4()` value drawn for this call, SSM, Secrets Manager (through
`json.loads`), Cognito password grant, and the HTTP POST returning a
status code and the parsed JSON body. -/
structure AwsWorld where
  freshId : String
  ssm : String → Except String String
  secrets : String → Except String PyVal
  cognito : PyVal → PyVal → PyVal → Except String String
  http : String → PyVal → Except String (Nat × PyVal)

/-- The `ValueError` message raised when neither a single message nor a
message sequence is supplied (all three `invoke_agent` variants). -/
def missingInputMsg : String := "Either user_message or messages must be provided"

/-- SSM parameter name used by `_get_agent_arn`. -/
def agentArnParam : String := "/agent/" ++ agent_name ++ "/runtime/agent_arn"

/-- Secret id used by `_get_cognito_credentials`. -/
def agentSecretName : String := "/agent/" ++ agent_name ++ "/cognito/credentials"

/-- `BedrockAgentCoreService._get_agent_arn` (lines 28-46): one SSM fetch,
errors re-raised. -/
def getAgentArn (w : AwsWorld) : Except String String × List NetOp :=
  (w.ssm agentArnParam, [.ssmGet agentArnParam])

/-- `BedrockAgentCoreService._get_cognito_credentials` (lines 48-73):
fetch and parse the secret, require `client_id`, default `username` /
`password`, optional `pool_id` / `discovery_url`. -/
def getCognitoCredentialsB (w : AwsWorld) : Except String PyVal × List NetOp :=
  (do
    let sv ← w.secrets agentSecretName
    let client_id ← pySubscript sv "client_id"
    let username ← pyGetD sv "username" (pstr "testuser")
    let password ← pyGetD sv "password" (pstr "MyPassword123!")
    let pool_id ← pyGetD sv "pool_id" pnone
    let discovery_url ← pyGetD sv "discovery_url" pnone
    .ok (pdict [("client_id", client_id), ("username", username),
                ("password", password), ("pool_id", pool_id),
                ("discovery_url", discovery_url)]),
   [.secretGet agentSecretName])

/-- `BedrockAgentCoreService._get_fresh_token` (lines 75-107): resolve
the Cognito credentials, then perform the `USER_PASSWORD_AUTH` grant. -/
def getFreshToken (w : AwsWorld) : Except String String × List NetOp :=
  match getCognitoCredentialsB w with
  | (.error e, ops) => (.error e, ops)
  | (.ok creds, ops) =>
    match (do
      let cid ← pySubscript creds "client_id"
      let u ← pyGetD creds "username" (pstr "testuser")
      let pw ← pyGetD creds "password" (pstr "MyPassword123!")
      pure (cid, u, pw) : Except String (PyVal × PyVal × PyVal)) with
    | .error e => (.error e, ops)
    | .ok (cid, u, pw) =>
      match w.cognito cid u pw with
      | .error e => (.error e, ops ++ [.cognitoAuth cid u pw])
      | .ok tok => (.ok tok, ops ++ [.cognitoAuth cid u pw])

/-- Hex digit (uppercase) for percent-encoding. -/
def hexDigit (n : Nat) : Char :=
  if n < 10 then Char.ofNat (48 + n) else Char.ofNat (55 + n)

/-- `urllib.parse.quote(c, safe="")` on one (ASCII) character. -/
def percentEncodeChar (c : Char) : String :=
  if c.isAlphanum ∨ c = '-' ∨ c = '_' ∨ c = '.' ∨ c = '~' then String.singleton c
  else "%" ++ String.singleton (hexDigit (c.toNat / 16 % 16)) ++
    String.singleton (hexDigit (c.toNat % 16))

/-- `urllib.parse.quote(agent_arn, safe="")` (ARNs are ASCII). -/
def urlQuote (s : String) : String :=
  String.join (s.toList.map percentEncodeChar)

/-- The invocation URL built in `invoke_agent` (lines 148-149). -/
def bedrockInvokeUrl (agent_arn : String) : String :=
  "https://bedrock-agentcore." ++ aws_region ++ ".amazonaws.com/runtimes/" ++
    urlQuote agent_arn ++ "/invocations"

/-- The request headers built in `invoke_agent` (lines 152-155). -/
def bedrockHeaders (access_token : String) : List (String × String) :=
  [("Authorization", "Bearer " ++ access_token),
   ("Content-Type", "application/json")]

/-- The f-string expression `messages[-1]["content"][0]["text"][:100]`
from the conversation-history log line (line 163); it raises `TypeError`
when `messages` is a string rather than a list of message dicts. -/
def latestMessageLog (messages : PyVal) : Except String PyVal := do
  let m ← pyIndexLast messages
  let c ← pySubscript m "content"
  let p0 ← pyIndexNat c 0
  let t ← pySubscript p0 "text"
  pySliceLog t

/-- The response-text extraction of `invoke_agent` (lines 195-215):
strings pass through; dicts try the AgentCore `content`-array format and
fall back to `response` / `output` / `text` / `json.dumps`; anything else
is stringified. -/
def extractBedrockText (response_data : PyVal) : PyVal :=
  match response_data with
  | .pstr s => pstr s
  | .pdict fs =>
      let rt0 : Option PyVal :=
        match pyLookup fs "content" with
        | some (plist cs) =>
            match cs with
            | (pdict f0) :: _ => some ((pyLookup f0 "text").getD (pstr ""))
            | _ => none
        | _ => none
      match rt0 with
      | some v =>
          if truthy v then v
          else pyOr (pyOr (pyOr ((pyLookup fs "response").getD pnone)
                 ((pyLookup fs "output").getD pnone))
               ((pyLookup fs "text").getD pnone)) (pstr (jsonDumps response_data))
      | none =>
          pyOr (pyOr (pyOr ((pyLookup fs "response").getD pnone)
                 ((pyLookup fs "output").getD pnone))
               ((pyLookup fs "text").getD pnone)) (pstr (jsonDumps response_data))
  | other => pstr (pyRepr other)

/-- The error envelope every `except` arm of `invoke_agent` returns
(lines 228-263): `success=false`, `response = "Error invoking agent: " +
detail`, `error = detail`, and the session id chosen at entry. -/
def bedrockErrorResult (detail : String) (sid : String) : InvocationResult :=
  ⟨pstr ("Error invoking agent: " ++ detail), some sid, none, false, some detail⟩

/-- `BedrockAgentCoreService.invoke_agent` (lines 109-263).  A falsy
session id is replaced by a fresh `uuid4`; ARN and token are fetched
fresh; the payload uses `messages` when truthy, else `user_message`, else
a `ValueError` is raised; the log line for the history format evaluates
`messages[-1]["content"][0]["text"]`, so a malformed `messages` value
raises before the HTTP request; every raise is converted by the outer
handlers into a uniform error envelope.  The non-200 branch models the
`requests` `HTTPError` detail string abstractly (no claim inspects it). -/
def invokeAgentB (w : AwsWorld) (user_message : Option String)
    (messages : Option PyVal) (session_id : Option String) :
    InvocationResult × List NetOp :=
  let sid := if optTruthy session_id then session_id.getD "" else w.freshId
  match getAgentArn w with
  | (.error e, ops) => (bedrockErrorResult e sid, ops)
  | (.ok arn, ops1) =>
    match getFreshToken w with
    | (.error e, ops2) => (bedrockErrorResult e sid, ops1 ++ ops2)
    | (.ok tok, ops2) =>
      let url := bedrockInvokeUrl arn
      let headers := bedrockHeaders tok
      match (if pyOptTruthy messages then do
               let m := messages.getD pnone
               let _ ← pyLen m
               let _ ← latestMessageLog m
               pure (pdict [("messages", m)])
             else if optTruthy user_message then do
               let u := user_message.getD ""
               let _ ← pySliceLog (pstr u)
               pure (pdict [("prompt", pstr u)])
             else (.error missingInputMsg : Except String PyVal)) with
      | .error e => (bedrockErrorResult e sid, ops1 ++ ops2)
      | .ok payload =>
        match w.http url payload with
        | .error e =>
            (bedrockErrorResult e sid, ops1 ++ ops2 ++ [.httpPost url headers payload])
        | .ok (status, body) =>
          if status ≠ 200 then
            (bedrockErrorResult ("HTTP " ++ toString status ++ " - Response: " ++ jsonDumps body) sid,
             ops1 ++ ops2 ++ [.httpPost url headers payload])
          else
            let rt := extractBedrockText body
            match pySliceLog rt with
            | .error e =>
                (bedrockErrorResult e sid, ops1 ++ ops2 ++ [.httpPost url headers payload])
            | .ok _ =>
                (⟨rt, some sid, none, true, none⟩,
                 ops1 ++ ops2 ++ [.httpPost url headers payload])

/-- `BedrockAgentCoreService.invoke_agent_stream` (lines 265-289): one
full `invoke_agent` call — with `session_id` passed positionally into the
`messages` parameter and nothing into `session_id` — then exactly one
yielded JSON event built from the result. -/
def invokeAgentStreamB (w : AwsWorld) (user_message : Option String)
    (session_id : Option String) : List String × List NetOp :=
  let r := invokeAgentB w user_message (session_id.map pstr) none
  let sidVal : PyVal := match r.1.session_id with | some s => pstr s | none => pnone
  if r.1.success then
    ([jsonDumps (pdict [("content", r.1.response), ("session_id", sidVal)])], r.2)
  else
    ([jsonDumps (pdict [("error", pstr (r.1.error.getD "Unknown error")),
                        ("session_id", sidVal)])], r.2)

/-! ## LocalAgentService / CloudAgentService
(local_agent_service.py, cloud_agent_service.py) -/

/-- The MCP headers built in `LocalAgentService._get_mcp_client`
(lines 48-51): content negotiation only, no Authorization (no bearer
token exists in local mode). -/
def localAgentMcpHeaders : List (String × String) :=
  [("Content-Type", "application/json"),
   ("Accept", "application/json, text/event-stream")]

/-- The MCP headers built in `CloudAgentService._get_mcp_client`
(lines 144-148): content negotiation plus the Cognito bearer token. -/
def cloudAgentMcpHeaders (bearer_token : String) : List (String × String) :=
  [("Content-Type", "application/json"),
   ("Accept", "application/json, text/event-stream"),
   ("Authorization", "Bearer " ++ bearer_token)]

/-- Environment oracle for one orchestrator `invoke_agent` call:
whether `self.agent` is set, the outcomes of entering the three MCP
client contexts, and the reasoning loop `self.agent(conversation_input)`
as a function of the conversation input. -/
structure AgentEnv where
  agentReady : Bool
  enterUdm : Except String Unit
  enterEdge : Except String Unit
  enterAi : Except String Unit
  agentCall : PyVal → Except String PyVal

/-- `isinstance(v, str)`. -/
def isPyStr : PyVal → Bool
  | .pstr _ => true
  | _ => false

/-- `type(v) == dict`. -/
def isPyDict : PyVal → Bool
  | .pdict _ => true
  | _ => false

/-- The response-text extraction shared verbatim by
`LocalAgentService.invoke_agent` (lines 297-308) and
`CloudAgentService.invoke_agent` (lines 392-403): prefer the `message`
attribute, else the string itself, else `str(result)`; then, when the
value is a dict with a `content` key, take `content[0]["text"]` for a
non-empty list content and `str(content)` otherwise. -/
def extractAgentResponse (result : PyVal) : Except String PyVal := do
  let rt ← (if hasattr result "message" then getattrE result "message"
            else if isPyStr result then .ok result
            else .ok (pstr (pyRepr result)))
  if isPyDict rt then
    match rt with
    | .pdict fs =>
        match pyLookup fs "content" with
        | some c =>
            match c with
            | .plist (x :: _) => pySubscript x "text"
            | _ => .ok (pstr (pyRepr c))
        | none => .ok rt
    | _ => .ok rt
  else .ok rt

/-- Message of the `Exception` raised when the local agent was never
constructed (line 276). -/
def localMissingAgentMsg : String :=
  "Local agent not initialized. Make sure ENVIRONMENT=local and MCP servers are running."

/-- Message of the `Exception` raised when the cloud agent was never
constructed (line 373). -/
def cloudMissingAgentMsg : String :=
  "Cloud agent not initialized. Make sure ENVIRONMENT=production and AWS resources are accessible."

/-- The error envelope of `LocalAgentService.invoke_agent`
(lines 319-327). -/
def localErrorResult (detail : String) (sid : Option String) : InvocationResult :=
  ⟨pstr ("Error invoking local agent: " ++ detail), sid, none, false, some detail⟩

/-- The error envelope of `CloudAgentService.invoke_agent`
(lines 414-422). -/
def cloudErrorResult (detail : String) (sid : Option String) : InvocationResult :=
  ⟨pstr ("Error invoking cloud agent: " ++ detail), sid, none, false, some detail⟩

/-- The event trace of the fully-entered triple `with` block. -/
def tripleWithTrace : List Ev :=
  [.opened 0, .opened 1, .opened 2, .closed 2, .closed 1, .closed 0]

/-- `LocalAgentService.invoke_agent` (lines 257-327).  Checks the agent,
chooses the conversation input (`messages` when truthy, else
`user_message`, else `ValueError`), opens the three MCP client contexts
(`with udm, edge_server, ai_service`), runs the reasoning loop, extracts
the response text, evaluates the `[:100]` log slice, and returns the
success envelope; every raise is converted by the outer handler, and the
`with` block closes whatever was opened, in reverse order. -/
def invokeLocalAgent (env : AgentEnv) (user_message : Option String)
    (messages : Option PyVal) (session_id : Option String) :
    InvocationResult × List Ev :=
  if ¬ env.agentReady then (localErrorResult localMissingAgentMsg session_id, [])
  else if ¬ (pyOptTruthy messages ∨ optTruthy user_message) then
    (localErrorResult missingInputMsg session_id, [])
  else
    let conversation_input :=
      if pyOptTruthy messages then messages.getD pnone
      else pstr (user_message.getD "")
    match env.enterUdm with
    | .error e => (localErrorResult e session_id, [])
    | .ok _ =>
      match env.enterEdge with
      | .error e => (localErrorResult e session_id, [.opened 0, .closed 0])
      | .ok _ =>
        match env.enterAi with
        | .error e =>
            (localErrorResult e session_id, [.opened 0, .opened 1, .closed 1, .closed 0])
        | .ok _ =>
          match (do
            let result ← env.agentCall conversation_input
            let rt ← extractAgentResponse result
            let _ ← pySliceLog rt
            pure rt : Except String PyVal) with
          | .error e => (localErrorResult e session_id, tripleWithTrace)
          | .ok rt => (⟨rt, session_id, none, true, none⟩, tripleWithTrace)

/-- `CloudAgentService.invoke_agent` (lines 354-422): identical control
flow to the local orchestrator, with the cloud error strings. -/
def invokeCloudAgent (env : AgentEnv) (user_message : Option String)
    (messages : Option PyVal) (session_id : Option String) :
    InvocationResult × List Ev :=
  if ¬ env.agentReady then (cloudErrorResult cloudMissingAgentMsg session_id, [])
  else if ¬ (pyOptTruthy messages ∨ optTruthy user_message) then
    (cloudErrorResult missingInputMsg session_id, [])
  else
    let conversation_input :=
      if pyOptTruthy messages then messages.getD pnone
      else pstr (user_message.getD "")
    match env.enterUdm with
    | .error e => (cloudErrorResult e session_id, [])
    | .ok _ =>
      match env.enterEdge with
      | .error e => (cloudErrorResult e session_id, [.opened 0, .closed 0])
      | .ok _ =>
        match env.enterAi with
        | .error e =>
            (cloudErrorResult e session_id, [.opened 0, .opened 1, .closed 1, .closed 0])
        | .ok _ =>
          match (do
            let result ← env.agentCall conversation_input
            let rt ← extractAgentResponse result
            let _ ← pySliceLog rt
            pure rt : Except String PyVal) with
          | .error e => (cloudErrorResult e session_id, tripleWithTrace)
          | .ok rt => (⟨rt, session_id, none, true, none⟩, tripleWithTrace)

/-! ## Concrete fixtures used by witnesses and counterexamples -/

/-- Orchestrator environment whose reasoning loop returns `r`. -/
def resultEnv (r : PyVal) : AgentEnv :=
  ⟨true, .ok (), .ok (), .ok (), fun _ => .ok r⟩

/-- Fully healthy local environment replying `"hello"`. -/
def goodEnv : AgentEnv := resultEnv (pstr "hello")

/-- Orchestrator environment with `self.agent` unset. -/
def offEnv : AgentEnv :=
  ⟨false, .ok (), .ok (), .ok (), fun _ => .ok (pstr "hello")⟩

/-- A well-formed conversation-history value. -/
def goodMsgs : PyVal :=
  plist [pdict [("role", pstr "user"),
                ("content", plist [pdict [("text", pstr "hi")]])]]

/-- A healthy Bedrock environment: the secret carries `client_id` /
`username` / `password`, the grant and the HTTP call succeed. -/
def demoAwsWorld : AwsWorld :=
  ⟨"fresh-uuid",
   fun _ => .ok "arn:aws:bedrock:us-east-1:123:runtime/x",
   fun _ => .ok (pdict [("client_id", pstr "cid"), ("username", pstr "u"),
                        ("password", pstr "pw1")]),
   fun _ _ _ => .ok "tok1",
   fun _ _ => .ok (200, pstr "hello")⟩

/-- A healthy MCP-client environment. -/
def demoMcpWorld : McpWorld :=
  ⟨fun _ => .ok "arn:aws:x/y",
   fun _ => .ok (pdict [("username", pstr "u"), ("password", pstr "pw")]),
   fun _ _ _ => .ok "btok"⟩

/-- A healthy transport/session oracle whose one tool replies `"pong"`. -/
def demoSessionWorld : SessionWorld :=
  ⟨fun _ _ => .ok (), .ok (), .ok (),
   fun _ _ => .ok (pobj "CallToolResult"
     [("content", plist [pobj "TextContent" [("text", pstr "pong")]])])⟩

/-! ## Helper lemmas -/

/-- The Bedrock `invoke_agent` returns, on every path, the session id
chosen at entry (fresh `uuid4` when the argument is falsy). -/
theorem bedrock_session_id_all (w : AwsWorld) (um : Option String)
    (msgs : Option PyVal) (sid0 : Option String) :
    (invokeAgentB w um msgs sid0).1.session_id
      = some (if optTruthy sid0 then sid0.getD "" else w.freshId) := by
  unfold invokeAgentB
  dsimp only
  repeat' split
  all_goals rfl

/-- The local orchestrator passes the session id argument through
unchanged on every path. -/
theorem local_session_id_all (env : AgentEnv) (um : Option String)
    (msgs : Option PyVal) (sid : Option String) :
    (invokeLocalAgent env um msgs sid).1.session_id = sid := by
  unfold invokeLocalAgent
  dsimp only
  repeat' split
  all_goals rfl

/-- The cloud orchestrator passes the session id argument through
unchanged on every path. -/
theorem cloud_session_id_all (env : AgentEnv) (um : Option String)
    (msgs : Option PyVal) (sid : Option String) :
    (invokeCloudAgent env um msgs sid).1.session_id = sid := by
  unfold invokeCloudAgent
  dsimp only
  repeat' split
  all_goals rfl

/-- Every result of the local orchestrator is either the full error
envelope or the full success envelope — never anything in between. -/
theorem local_envelope (env : AgentEnv) (um : Option String)
    (msgs : Option PyVal) (sid : Option String) :
    (∃ d, (invokeLocalAgent env um msgs sid).1 = localErrorResult d sid) ∨
    (∃ rt, (invokeLocalAgent env um msgs sid).1 = ⟨rt, sid, none, true, none⟩) := by
  unfold invokeLocalAgent
  dsimp only
  repeat' split
  all_goals first
    | exact Or.inl ⟨_, rfl⟩
    | exact Or.inr ⟨_, rfl⟩

/-- Every result of the cloud orchestrator is either the full error
envelope or the full success envelope. -/
theorem cloud_envelope (env : AgentEnv) (um : Option String)
    (msgs : Option PyVal) (sid : Option String) :
    (∃ d, (invokeCloudAgent env um msgs sid).1 = cloudErrorResult d sid) ∨
    (∃ rt, (invokeCloudAgent env um msgs sid).1 = ⟨rt, sid, none, true, none⟩) := by
  unfold invokeCloudAgent
  dsimp only
  repeat' split
  all_goals first
    | exact Or.inl ⟨_, rfl⟩
    | exact Or.inr ⟨_, rfl⟩

/-! ## Claims -/

/-- C1: on every path of the scoped session acquisition — credential
failure (nothing opened), transport failure, handshake failure, body
failure, or success — every session opened by `connect_to_mcp` and by the
orchestrators' triple `with` blocks is closed exactly once (in LIFO
order) before the call's result is returned. -/
theorem sessions_closed_exactly_once :
    (∀ (w : McpWorld) (sw : SessionWorld) (sk : String)
       (body : Except String PyVal × List NetOp),
       closedExactlyOnce (connectToMcp w sw sk body).2.2) ∧
    (∀ (env : AgentEnv) (um : Option String) (msgs : Option PyVal) (sid : Option String),
       closedExactlyOnce (invokeLocalAgent env um msgs sid).2) ∧
    (∀ (env : AgentEnv) (um : Option String) (msgs : Option PyVal) (sid : Option String),
       closedExactlyOnce (invokeCloudAgent env um msgs sid).2) := by
  refine ⟨fun w sw sk body => ?_, fun env um msgs sid => ?_, fun env um msgs sid => ?_⟩
  · unfold connectToMcp
    repeat' split
    all_goals try dsimp only
    all_goals decide
  · unfold invokeLocalAgent
    dsimp only
    repeat' split
    all_goals (dsimp only; decide)
  · unfold invokeCloudAgent
    dsimp only
    repeat' split
    all_goals (dsimp only; decide)

/-- C3 counterexample: the local orchestrator's error response string is
"Error invoking local agent: <detail>", not "Error invoking agent:
<detail>" — here at the un-constructed-agent input the returned response
does not carry the claimed prefix. -/
theorem error_envelope_counterexample :
    (invokeLocalAgent offEnv (some "hi") none none).1.success = false ∧
    (invokeLocalAgent offEnv (some "hi") none none).1.response
      = pstr ("Error invoking local agent: " ++ localMissingAgentMsg) ∧
    List.isPrefixOf ("Error invoking agent: ").toList
      ("Error invoking local agent: " ++ localMissingAgentMsg).toList = false :=
  ⟨rfl, rfl, by decide⟩

/-- C3 amended: both orchestrators never let an exception escape and
never return a partially populated result — on success `error` is absent,
on any exception `success=false`, `error` is the raw detail and `response`
is the service's own human-readable string, which is "Error invoking
local agent: <detail>" locally and "Error invoking cloud agent:
<detail>" in cloud mode (only the Bedrock service uses the prefix "Error
invoking agent: "). -/
theorem error_envelope_amended :
    ∀ (env : AgentEnv) (um : Option String) (msgs : Option PyVal) (sid : Option String),
      ((invokeLocalAgent env um msgs sid).1.success = true →
        (invokeLocalAgent env um msgs sid).1.error = none) ∧
      ((invokeLocalAgent env um msgs sid).1.success = false →
        ∃ d, (invokeLocalAgent env um msgs sid).1.error = some d ∧
          (invokeLocalAgent env um msgs sid).1.response
            = pstr ("Error invoking local agent: " ++ d)) ∧
      ((invokeCloudAgent env um msgs sid).1.success = true →
        (invokeCloudAgent env um msgs sid).1.error = none) ∧
      ((invokeCloudAgent env um msgs sid).1.success = false →
        ∃ d, (invokeCloudAgent env um msgs sid).1.error = some d ∧
          (invokeCloudAgent env um msgs sid).1.response
            = pstr ("Error invoking cloud agent: " ++ d)) := by
  intro env um msgs sid
  refine ⟨?_, ?_, ?_, ?_⟩
  · intro h
    rcases local_envelope env um msgs sid with ⟨d, hd⟩ | ⟨rt, hrt⟩
    · rw [hd] at h; exact absurd h (by simp [localErrorResult])
    · rw [hrt]
  · intro h
    rcases local_envelope env um msgs sid with ⟨d, hd⟩ | ⟨rt, hrt⟩
    · exact ⟨d, by rw [hd]; rfl, by rw [hd]; rfl⟩
    · rw [hrt] at h; exact absurd h (by simp)
  · intro h
    rcases cloud_envelope env um msgs sid with ⟨d, hd⟩ | ⟨rt, hrt⟩
    · rw [hd] at h; exact absurd h (by simp [cloudErrorResult])
    · rw [hrt]
  · intro h
    rcases cloud_envelope env um msgs sid with ⟨d, hd⟩ | ⟨rt, hrt⟩
    · exact ⟨d, by rw [hd]; rfl, by rw [hd]; rfl⟩
    · rw [hrt] at h; exact absurd h (by simp)

/-- C3 witness: at a concrete healthy input the success envelope carries
no error field. -/
theorem error_envelope_amended_witness :
    (invokeLocalAgent goodEnv (some "hi") none none).1.error = none :=
  (error_envelope_amended goodEnv (some "hi") none none).1 rfl

/-- C4 counterexample: a reasoning-loop result of the literal shape (c)
`{content: [{text: "hello"}]}` — a mapping with no `message` attribute —
is stringified by the orchestrator (`str(result)`), so the response is
the repr text, not "hello". -/
theorem normalization_counterexample :
    (invokeLocalAgent (resultEnv (pdict [("content", plist [pdict [("text", pstr "hello")]])]))
        (some "hi") none none).1.success = true ∧
    (invokeLocalAgent (resultEnv (pdict [("content", plist [pdict [("text", pstr "hello")]])]))
        (some "hi") none none).1.response
      = pstr "\x7b\x27content\x27: [\x7b\x27text\x27: \x27hello\x27\x7d]\x7d" ∧
    "\x7b\x27content\x27: [\x7b\x27text\x27: \x27hello\x27\x7d]\x7d" ≠ "hello" :=
  ⟨rfl, rfl, by decide⟩

/-- C4 amended: shapes (a) plain string "hello" and (b) object with a
`message` field "hello" normalize to "hello"; shape (c) normalizes to
"hello" only when the content-bearing mapping arrives as the value of the
result's `message` field — a raw result of shape (c), like any non-string
result without a `message` attribute, is stringified. -/
theorem normalization_amended :
    ((invokeLocalAgent (resultEnv (pstr "hello")) (some "hi") none none).1.response
        = pstr "hello") ∧
    ((invokeLocalAgent (resultEnv (pobj "AgentResult" [("message", pstr "hello")]))
        (some "hi") none none).1.response = pstr "hello") ∧
    ((invokeLocalAgent (resultEnv (pobj "AgentResult"
        [("message", pdict [("content", plist [pdict [("text", pstr "hello")]])])]))
        (some "hi") none none).1.response = pstr "hello") ∧
    ((invokeCloudAgent (resultEnv (pobj "AgentResult"
        [("message", pdict [("content", plist [pdict [("text", pstr "hello")]])])]))
        (some "hi") none none).1.response = pstr "hello") ∧
    (∀ r : PyVal, hasattr r "message" = false → isPyStr r = false →
       extractAgentResponse r = .ok (pstr (pyRepr r))) := by
  refine ⟨rfl, rfl, rfl, rfl, ?_⟩
  intro r h1 h2
  simp [extractAgentResponse, h1, h2, isPyDict, bind, Except.bind]

/-- C4 witness: a non-string result without a `message` attribute is
stringified. -/
theorem normalization_amended_witness :
    extractAgentResponse (pint 5) = .ok (pstr (pyRepr (pint 5))) :=
  normalization_amended.2.2.2.2 (pint 5) rfl rfl

/-- C7 counterexample: the local orchestrator, invoked without a session
identifier, returns a result whose session id is absent (`None`) — no
fresh random identifier is synthesized on this path. -/
theorem session_id_counterexample :
    (invokeLocalAgent (resultEnv (pstr "hi-there")) (some "hi") none none).1.success = true ∧
    (invokeLocalAgent (resultEnv (pstr "hi-there")) (some "hi") none none).1.session_id = none :=
  ⟨rfl, rfl⟩

/-- C7 amended: only the Bedrock service synthesizes session ids — a
falsy (absent or empty) session id becomes the fresh `uuid4` of the call
and a non-empty one passes through unchanged — while the local and cloud
orchestrators always return the argument unchanged, including `None`. -/
theorem session_id_amended :
    (∀ (w : AwsWorld) (um : Option String) (msgs : Option PyVal),
       (invokeAgentB w um msgs none).1.session_id = some w.freshId) ∧
    (∀ (w : AwsWorld) (um : Option String) (msgs : Option PyVal),
       (invokeAgentB w um msgs (some "")).1.session_id = some w.freshId) ∧
    (∀ (w : AwsWorld) (um : Option String) (msgs : Option PyVal) (s : String),
       s ≠ "" → (invokeAgentB w um msgs (some s)).1.session_id = some s) ∧
    (∀ (env : AgentEnv) (um : Option String) (msgs : Option PyVal) (sid : Option String),
       (invokeLocalAgent env um msgs sid).1.session_id = sid) ∧
    (∀ (env : AgentEnv) (um : Option String) (msgs : Option PyVal) (sid : Option String),
       (invokeCloudAgent env um msgs sid).1.session_id = sid) := by
  refine ⟨fun w um msgs => ?_, fun w um msgs => ?_, fun w um msgs s hs => ?_,
    fun env um msgs sid => local_session_id_all env um msgs sid,
    fun env um msgs sid => cloud_session_id_all env um msgs sid⟩
  · simpa [optTruthy] using bedrock_session_id_all w um msgs none
  · simpa [optTruthy] using bedrock_session_id_all w um msgs (some "")
  · simpa [optTruthy, hs] using bedrock_session_id_all w um msgs (some s)

/-- C7 witness: a supplied non-empty session id passes through the
Bedrock service unchanged. -/
theorem session_id_amended_witness :
    (invokeAgentB demoAwsWorld (some "hi") none (some "keep")).1.session_id = some "keep" :=
  session_id_amended.2.2.1 demoAwsWorld (some "hi") none "keep" (by decide)

/-- With the agent constructed, supplying neither input form makes the
local orchestrator return the missing-input error envelope. -/
theorem local_missing_input (env : AgentEnv) (um : Option String) (msgs : Option PyVal)
    (sid : Option String) (hr : env.agentReady = true)
    (hm : pyOptTruthy msgs = false) (hu : optTruthy um = false) :
    (invokeLocalAgent env um msgs sid).1 = localErrorResult missingInputMsg sid := by
  simp [invokeLocalAgent, hr, hm, hu]

/-- With ARN and token resolving, supplying neither input form makes the
Bedrock service return the missing-input error envelope. -/
theorem bedrock_missing_input (w : AwsWorld) (um : Option String) (msgs : Option PyVal)
    (sid : Option String) (arn tok : String)
    (hA : w.ssm agentArnParam = .ok arn) (hT : (getFreshToken w).1 = .ok tok)
    (hm : pyOptTruthy msgs = false) (hu : optTruthy um = false) :
    (invokeAgentB w um msgs sid).1
      = bedrockErrorResult missingInputMsg (if optTruthy sid then sid.getD "" else w.freshId) := by
  unfold invokeAgentB
  dsimp only
  have hA2 : getAgentArn w = (.ok arn, [.ssmGet agentArnParam]) := by
    simp [getAgentArn, hA]
  rcases hT2 : getFreshToken w with ⟨r2, ops2⟩
  rw [hT2] at hT
  simp only [hA2, hT2]
  cases r2 with
  | error e => exact absurd hT (by simp)
  | ok tok2 => simp [hm, hu]

/-- C5 counterexample: supplying both a single message and a message
sequence does not fail — the invocation proceeds down the happy path
(the message sequence wins), contradicting the claimed mutual-exclusion
failure. -/
theorem input_exclusivity_counterexample :
    (invokeLocalAgent goodEnv (some "hi") (some goodMsgs) none).1.success = true ∧
    (invokeLocalAgent goodEnv (some "hi") (some goodMsgs) none).1.error = none ∧
    (invokeLocalAgent goodEnv (some "hi") (some goodMsgs) none).1.response = pstr "hello" :=
  ⟨rfl, rfl, rfl⟩

/-- C5 amended: supplying neither input fails with the missing-input
`ValueError` (surfaced as the error envelope); supplying exactly one
proceeds down the happy path; supplying both also proceeds down the
happy path, with the message sequence taking precedence (the Bedrock
request payload is the `messages` payload). -/
theorem input_exclusivity_amended :
    (∀ (env : AgentEnv) (um : Option String) (msgs : Option PyVal) (sid : Option String),
       env.agentReady = true → pyOptTruthy msgs = false → optTruthy um = false →
       (invokeLocalAgent env um msgs sid).1 = localErrorResult missingInputMsg sid) ∧
    (∀ (w : AwsWorld) (um : Option String) (msgs : Option PyVal) (sid : Option String)
       (arn tok : String),
       w.ssm agentArnParam = .ok arn → (getFreshToken w).1 = .ok tok →
       pyOptTruthy msgs = false → optTruthy um = false →
       (invokeAgentB w um msgs sid).1 = bedrockErrorResult missingInputMsg
         (if optTruthy sid then sid.getD "" else w.freshId)) ∧
    ((invokeAgentB demoAwsWorld (some "hi") (some goodMsgs) none).1.success = true ∧
     (invokeAgentB demoAwsWorld (some "hi") (some goodMsgs) none).2
       = [.ssmGet agentArnParam, .secretGet agentSecretName,
          .cognitoAuth (pstr "cid") (pstr "u") (pstr "pw1"),
          .httpPost (bedrockInvokeUrl "arn:aws:bedrock:us-east-1:123:runtime/x")
            (bedrockHeaders "tok1") (pdict [("messages", goodMsgs)])]) ∧
    ((invokeLocalAgent goodEnv (some "hi") none none).1.success = true) ∧
    ((invokeLocalAgent goodEnv none (some goodMsgs) none).1.success = true) :=
  ⟨local_missing_input, bedrock_missing_input, ⟨rfl, rfl⟩, rfl, rfl⟩

/-- C5 witness: the missing-input envelope at a concrete healthy
environment. -/
theorem input_exclusivity_amended_witness :
    (invokeLocalAgent goodEnv none none none).1 = localErrorResult missingInputMsg none :=
  input_exclusivity_amended.1 goodEnv none none none rfl rfl rfl

/-- `call_tool` inside a healthy session returns the first content
part's `text` attribute. -/
theorem call_tool_first_text (w : McpWorld) (sw : SessionWorld) (sk tool : String)
    (args : List (String × PyVal)) (creds : McpCredentials) (ops : List NetOp)
    (cls p0cls : String) (attrs p0attrs : List (String × PyVal)) (rest : List PyVal) (t : String)
    (hc : getMcpCredentials w sk = (.ok creds, ops))
    (ht : sw.transport (mcpServerUrl creds.agent_arn) (connectHeaders creds.bearer_token) = .ok ())
    (hse : sw.sessionEnter = .ok ()) (hh : sw.handshake = .ok ())
    (hr : sw.rpc tool args = .ok (pobj cls attrs))
    (hcontent : pyLookup attrs "content" = some (plist (pobj p0cls p0attrs :: rest)))
    (htext : pyLookup p0attrs "text" = some (pstr t)) :
    (callTool w sw sk tool (some args)).1 = .ok (pstr t) := by
  unfold callTool connectToMcp callToolBody
  simp [hc, ht, hse, hh, hr, hasattr, getattrE, hcontent, pyLen, pyIndexNat, htext,
    bind, Except.bind]

/-- `call_tool` stringifies an RPC result that has no `content`
attribute. -/
theorem call_tool_no_content (w : McpWorld) (sw : SessionWorld) (sk tool : String)
    (args : List (String × PyVal)) (creds : McpCredentials) (ops : List NetOp) (r : PyVal)
    (hc : getMcpCredentials w sk = (.ok creds, ops))
    (ht : sw.transport (mcpServerUrl creds.agent_arn) (connectHeaders creds.bearer_token) = .ok ())
    (hse : sw.sessionEnter = .ok ()) (hh : sw.handshake = .ok ())
    (hr : sw.rpc tool args = .ok r) (hno : hasattr r "content" = false) :
    (callTool w sw sk tool (some args)).1 = .ok (pstr (pyRepr r)) := by
  unfold callTool connectToMcp callToolBody
  simp [hc, ht, hse, hh, hr, hno, bind, Except.bind]

/-- `call_tool` stringifies an RPC result whose `content` sequence is
empty. -/
theorem call_tool_empty_content (w : McpWorld) (sw : SessionWorld) (sk tool : String)
    (args : List (String × PyVal)) (creds : McpCredentials) (ops : List NetOp)
    (cls : String) (attrs : List (String × PyVal))
    (hc : getMcpCredentials w sk = (.ok creds, ops))
    (ht : sw.transport (mcpServerUrl creds.agent_arn) (connectHeaders creds.bearer_token) = .ok ())
    (hse : sw.sessionEnter = .ok ()) (hh : sw.handshake = .ok ())
    (hr : sw.rpc tool args = .ok (pobj cls attrs))
    (hcontent : pyLookup attrs "content" = some (plist [])) :
    (callTool w sw sk tool (some args)).1 = .ok (pstr (pyRepr (pobj cls attrs))) := by
  unfold callTool connectToMcp callToolBody
  simp [hc, ht, hse, hh, hr, hasattr, getattrE, hcontent, pyLen, bind, Except.bind]

/-- C8: absent tool arguments are treated as the empty mapping; a result
exposing a non-empty `content` sequence yields the first part's `text`
field; a result without a `content` attribute, or with an empty
`content` sequence, is stringified whole. -/
theorem call_tool_contract :
    (∀ (w : McpWorld) (sw : SessionWorld) (sk tool : String),
       callTool w sw sk tool none = callTool w sw sk tool (some [])) ∧
    (∀ (w : McpWorld) (sw : SessionWorld) (sk tool : String)
       (args : List (String × PyVal)) (creds : McpCredentials) (ops : List NetOp)
       (cls p0cls : String) (attrs p0attrs : List (String × PyVal)) (rest : List PyVal)
       (t : String),
       getMcpCredentials w sk = (.ok creds, ops) →
       sw.transport (mcpServerUrl creds.agent_arn) (connectHeaders creds.bearer_token) = .ok () →
       sw.sessionEnter = .ok () → sw.handshake = .ok () →
       sw.rpc tool args = .ok (pobj cls attrs) →
       pyLookup attrs "content" = some (plist (pobj p0cls p0attrs :: rest)) →
       pyLookup p0attrs "text" = some (pstr t) →
       (callTool w sw sk tool (some args)).1 = .ok (pstr t)) ∧
    (∀ (w : McpWorld) (sw : SessionWorld) (sk tool : String)
       (args : List (String × PyVal)) (creds : McpCredentials) (ops : List NetOp) (r : PyVal),
       getMcpCredentials w sk = (.ok creds, ops) →
       sw.transport (mcpServerUrl creds.agent_arn) (connectHeaders creds.bearer_token) = .ok () →
       sw.sessionEnter = .ok () → sw.handshake = .ok () →
       sw.rpc tool args = .ok r → hasattr r "content" = false →
       (callTool w sw sk tool (some args)).1 = .ok (pstr (pyRepr r))) ∧
    (∀ (w : McpWorld) (sw : SessionWorld) (sk tool : String)
       (args : List (String × PyVal)) (creds : McpCredentials) (ops : List NetOp)
       (cls : String) (attrs : List (String × PyVal)),
       getMcpCredentials w sk = (.ok creds, ops) →
       sw.transport (mcpServerUrl creds.agent_arn) (connectHeaders creds.bearer_token) = .ok () →
       sw.sessionEnter = .ok () → sw.handshake = .ok () →
       sw.rpc tool args = .ok (pobj cls attrs) →
       pyLookup attrs "content" = some (plist []) →
       (callTool w sw sk tool (some args)).1 = .ok (pstr (pyRepr (pobj cls attrs)))) :=
  ⟨fun _ _ _ _ => rfl, call_tool_first_text, call_tool_no_content, call_tool_empty_content⟩

/-- C8 witness: the demo session's `ping` tool returns `"pong"` through
the first-text extraction, with all hypotheses discharged concretely. -/
theorem call_tool_contract_witness :
    (callTool demoMcpWorld demoSessionWorld "udm" "ping" (some [])).1 = .ok (pstr "pong") :=
  call_tool_contract.2.1 demoMcpWorld demoSessionWorld "udm" "ping" []
    ⟨"arn:aws:x/y", "btok"⟩
    [.ssmGet "/mcp_server/udm/runtime/agent_arn",
     .secretGet "mcp_server/udm/cognito/credentials",
     .ssmGet "/mcp_server/udm/runtime/client_id",
     .cognitoAuth (pstr "arn:aws:x/y") (pstr "u") (pstr "pw")]
    "CallToolResult" "TextContent"
    [("content", plist [pobj "TextContent" [("text", pstr "pong")]])]
    [("text", pstr "pong")] [] "pong"
    rfl rfl rfl rfl rfl rfl rfl

/-- When the `messages` parameter receives a non-empty string (as
happens when `invoke_agent_stream` forwards `session_id` positionally),
`invoke_agent` always returns the error envelope with the fresh id: the
history log line indexes the string and raises before the HTTP call. -/
theorem bedrock_str_messages_errors (w : AwsWorld) (um : Option String) (s : String)
    (hs : s ≠ "") :
    ∃ d, (invokeAgentB w um (some (pstr s)) none).1 = bedrockErrorResult d w.freshId := by
  unfold invokeAgentB
  dsimp only
  have hsid : optTruthy (none : Option String) = false := rfl
  have hmt : pyOptTruthy (some (pstr s)) = true := by simp [pyOptTruthy, truthy, hs]
  rcases hA : getAgentArn w with ⟨r1, ops1⟩
  cases r1 with
  | error e => exact ⟨e, by simp [hsid]⟩
  | ok arn =>
    rcases hT : getFreshToken w with ⟨r2, ops2⟩
    cases r2 with
    | error e => exact ⟨e, by simp [hsid]⟩
    | ok tok =>
      simp only [hmt, if_true, hsid, if_false]
      cases h : s.data.getLast? with
      | none =>
        refine ⟨"IndexError: string index out of range", ?_⟩
        simp [latestMessageLog, pyIndexLast, String.toList, h, pyLen, bind, Except.bind]
      | some c =>
        refine ⟨"TypeError: string indices must be integers", ?_⟩
        simp [latestMessageLog, pyIndexLast, String.toList, h, pyLen, pySubscript,
          bind, Except.bind]

/-- C10: `invoke_agent_stream` passes `session_id` positionally into
`invoke_agent`'s `messages` parameter; hence for every non-empty
session id — whatever the state of the backing AWS services — the
invocation fails, the result carries the freshly generated identifier
instead of the caller's, and the single emitted event is the error
event. -/
theorem stream_session_id_misforward (w : AwsWorld) (um : Option String) (s : String)
    (hs : s ≠ "") :
    (invokeAgentB w um (some (pstr s)) none).1.success = false ∧
    (invokeAgentB w um (some (pstr s)) none).1.session_id = some w.freshId ∧
    ∃ d, (invokeAgentStreamB w um (some s)).1
      = [jsonDumps (pdict [("error", pstr d), ("session_id", pstr w.freshId)])] := by
  obtain ⟨d, hd⟩ := bedrock_str_messages_errors w um s hs
  refine ⟨?_, ?_, ⟨d, ?_⟩⟩
  · rw [hd]; rfl
  · rw [hd]; rfl
  · unfold invokeAgentStreamB
    have hmap : (some s).map PyVal.pstr = some (pstr s) := rfl
    rw [hmap]
    dsimp only
    rw [hd]
    rfl

/-- C10 witness: with every AWS dependency healthy, streaming with the
session id "sess-1" still produces a single error event carrying the
fresh identifier. -/
theorem stream_session_id_misforward_witness :
    (invokeAgentB demoAwsWorld (some "hi") (some (pstr "sess-1")) none).1.success = false ∧
    (invokeAgentB demoAwsWorld (some "hi") (some (pstr "sess-1")) none).1.session_id
      = some demoAwsWorld.freshId ∧
    ∃ d, (invokeAgentStreamB demoAwsWorld (some "hi") (some "sess-1")).1
      = [jsonDumps (pdict [("error", pstr d), ("session_id", pstr demoAwsWorld.freshId)])] :=
  stream_session_id_misforward demoAwsWorld (some "hi") "sess-1" (by decide)

/-- When the secret resolves to a dict holding a `client_id`,
`_get_cognito_credentials` returns exactly the credential dict of the
source (defaults applied) with one secret fetch. -/
theorem getCognitoB_spec (w : AwsWorld) (fs : List (String × PyVal)) (cidv : PyVal)
    (hS : w.secrets agentSecretName = .ok (pdict fs))
    (hcid : pyLookup fs "client_id" = some cidv) :
    getCognitoCredentialsB w =
      (.ok (pdict [("client_id", cidv),
                   ("username", (pyLookup fs "username").getD (pstr "testuser")),
                   ("password", (pyLookup fs "password").getD (pstr "MyPassword123!")),
                   ("pool_id", (pyLookup fs "pool_id").getD pnone),
                   ("discovery_url", (pyLookup fs "discovery_url").getD pnone)]),
       [.secretGet agentSecretName]) := by
  simp [getCognitoCredentialsB, hS, pySubscript, pyGetD, hcid, bind, Except.bind]

/-- The network trace of `_get_fresh_token` when the secret resolves:
one secret fetch, then the password grant carrying exactly the username
and password read from the current secret. -/
theorem getFreshToken_trace (w : AwsWorld) (fs : List (String × PyVal)) (cidv : PyVal)
    (hS : w.secrets agentSecretName = .ok (pdict fs))
    (hcid : pyLookup fs "client_id" = some cidv) :
    (getFreshToken w).2 =
      [.secretGet agentSecretName,
       .cognitoAuth cidv ((pyLookup fs "username").getD (pstr "testuser"))
         ((pyLookup fs "password").getD (pstr "MyPassword123!"))] := by
  unfold getFreshToken
  rw [getCognitoB_spec w fs cidv hS hcid]
  simp [pySubscript, pyGetD, pyLookup, bind, Except.bind, pure, Except.pure]
  split <;> rfl

/-- Any password grant performed by `_get_fresh_token` carries the
username/password read from the secret value current at this call. -/
theorem getFreshToken_current_secret (w : AwsWorld) (cid u p : PyVal)
    (hmem : NetOp.cognitoAuth cid u p ∈ (getFreshToken w).2) :
    ∃ fs, w.secrets agentSecretName = .ok (pdict fs) ∧
      u = (pyLookup fs "username").getD (pstr "testuser") ∧
      p = (pyLookup fs "password").getD (pstr "MyPassword123!") := by
  cases hS : w.secrets agentSecretName with
  | error e =>
    unfold getFreshToken getCognitoCredentialsB at hmem
    simp [hS, bind, Except.bind] at hmem
  | ok sv =>
    cases sv with
    | pdict fs =>
      cases hcid : pyLookup fs "client_id" with
      | none =>
        unfold getFreshToken getCognitoCredentialsB at hmem
        simp [hS, hcid, pySubscript, bind, Except.bind] at hmem
      | some cidv =>
        rw [getFreshToken_trace w fs cidv hS hcid] at hmem
        simp at hmem
        exact ⟨fs, rfl, hmem.2.1, hmem.2.2⟩
    | pstr s =>
      unfold getFreshToken getCognitoCredentialsB at hmem
      simp [hS, pySubscript, bind, Except.bind] at hmem
    | pint n =>
      unfold getFreshToken getCognitoCredentialsB at hmem
      simp [hS, pySubscript, bind, Except.bind] at hmem
    | pbool b =>
      unfold getFreshToken getCognitoCredentialsB at hmem
      simp [hS, pySubscript, bind, Except.bind] at hmem
    | pnone =>
      unfold getFreshToken getCognitoCredentialsB at hmem
      simp [hS, pySubscript, bind, Except.bind] at hmem
    | plist xs =>
      unfold getFreshToken getCognitoCredentialsB at hmem
      simp [hS, pySubscript, bind, Except.bind] at hmem
    | pobj c a =>
      unfold getFreshToken getCognitoCredentialsB at hmem
      simp [hS, pySubscript, bind, Except.bind] at hmem

/-- Every password grant in an `invoke_agent` trace comes from this
call's own `_get_fresh_token` resolution. -/
theorem invokeAgentB_auth_mem (w : AwsWorld) (um : Option String) (msgs : Option PyVal)
    (sid : Option String) (cid u p : PyVal)
    (hmem : NetOp.cognitoAuth cid u p ∈ (invokeAgentB w um msgs sid).2) :
    NetOp.cognitoAuth cid u p ∈ (getFreshToken w).2 := by
  unfold invokeAgentB at hmem
  dsimp only at hmem
  rw [show getAgentArn w = (w.ssm agentArnParam, [NetOp.ssmGet agentArnParam]) from rfl] at hmem
  rcases hT : getFreshToken w with ⟨r2, ops2⟩
  try dsimp only
  cases hssm : w.ssm agentArnParam with
  | error e =>
    rw [hssm] at hmem
    dsimp only at hmem
    simp at hmem
  | ok arn =>
    rw [hssm] at hmem
    dsimp only at hmem
    rw [hT] at hmem
    cases r2 with
    | error e =>
      simp at hmem
      exact hmem
    | ok tok =>
      dsimp only at hmem
      repeat' split at hmem
      all_goals simp_all

/-- Any password grant performed by `_get_mcp_credentials` carries the
username/password read from the per-server secret current at this
call. -/
theorem getMcpCredentials_current_secret (w : McpWorld) (sk : String) (cfg : ServerConfig)
    (hl : mcp_servers.lookup sk = some cfg) (cid u p : PyVal)
    (hmem : NetOp.cognitoAuth cid u p ∈ (getMcpCredentials w sk).2) :
    ∃ fs, w.secrets (cfg.ssmBase.drop 1 ++ "/cognito/credentials") = .ok (pdict fs) ∧
      u = (pyLookup fs "username").getD (pstr "testuser") ∧
      p = (pyLookup fs "password").getD (pstr "MyPassword123!") := by
  unfold getMcpCredentials at hmem
  rw [hl] at hmem
  dsimp only at hmem
  cases hA : w.ssm (cfg.ssmBase ++ "/runtime/agent_arn") with
  | error e => rw [hA] at hmem; simp at hmem
  | ok arn =>
    rw [hA] at hmem
    cases hS : w.secrets (cfg.ssmBase.drop 1 ++ "/cognito/credentials") with
    | error e => rw [hS] at hmem; simp at hmem
    | ok sv =>
      rw [hS] at hmem
      cases hC : w.ssm (cfg.ssmBase ++ "/runtime/client_id") with
      | error e => rw [hC] at hmem; simp at hmem
      | ok clientId =>
        rw [hC] at hmem
        cases sv with
        | pdict fs =>
          dsimp only [pyGetD] at hmem
          repeat' split at hmem
          all_goals (simp at hmem; exact ⟨fs, rfl, hmem.2.1, hmem.2.2⟩)
        | pstr s => simp [pyGetD] at hmem
        | pint n => simp [pyGetD] at hmem
        | pbool b => simp [pyGetD] at hmem
        | pnone => simp [pyGetD] at hmem
        | plist xs => simp [pyGetD] at hmem
        | pobj c a => simp [pyGetD] at hmem

/-- Every `connect_to_mcp` run performs this call's own credential
resolution first: its network trace starts with the resolution trace. -/
theorem connectToMcp_ops (w : McpWorld) (sw : SessionWorld) (sk : String)
    (body : Except String PyVal × List NetOp) :
    ∃ rest, (connectToMcp w sw sk body).2.1 = (getMcpCredentials w sk).2 ++ rest := by
  unfold connectToMcp
  rcases hc : getMcpCredentials w sk with ⟨res, ops⟩
  try dsimp only
  cases res with
  | error e => exact ⟨[], by simp⟩
  | ok creds =>
    dsimp only
    repeat' split
    all_goals first
      | exact ⟨body.2, rfl⟩
      | exact ⟨[], by simp⟩

/-- A batch of sequential invocations is the per-world map: the `i`-th
call is a function of the world current at call `i` alone (the service
threads no state between calls). -/
theorem seq_invocations_get (ws : List AwsWorld) (um : Option String) (msgs : Option PyVal)
    (sid : Option String) (i : Nat) (h1 : i < ws.length)
    (h2 : i < (ws.map fun w => invokeAgentB w um msgs sid).length) :
    (ws.map fun w => invokeAgentB w um msgs sid).get ⟨i, h2⟩
      = invokeAgentB (ws.get ⟨i, h1⟩) um msgs sid := by
  simp [List.get_eq_getElem, List.getElem_map]

/-- C2: credential resolution is performed fresh on every call with no
cache: (1) a sequence of invocations is the per-call-world map, so call
`i` depends only on the world current at call `i`; (2)/(3) every
password grant in a Bedrock invocation or an MCP credential resolution
carries exactly the username/password read from the secret value current
at that call; (4) every scoped session acquisition starts with its own
resolution's network steps. -/
theorem credential_resolution_fresh :
    (∀ (ws : List AwsWorld) (um : Option String) (msgs : Option PyVal) (sid : Option String)
       (i : Nat) (h1 : i < ws.length)
       (h2 : i < (ws.map fun w => invokeAgentB w um msgs sid).length),
       (ws.map fun w => invokeAgentB w um msgs sid).get ⟨i, h2⟩
         = invokeAgentB (ws.get ⟨i, h1⟩) um msgs sid) ∧
    (∀ (w : AwsWorld) (um : Option String) (msgs : Option PyVal) (sid : Option String)
       (cid u p : PyVal),
       NetOp.cognitoAuth cid u p ∈ (invokeAgentB w um msgs sid).2 →
       ∃ fs, w.secrets agentSecretName = .ok (pdict fs) ∧
         u = (pyLookup fs "username").getD (pstr "testuser") ∧
         p = (pyLookup fs "password").getD (pstr "MyPassword123!")) ∧
    (∀ (w : McpWorld) (sk : String) (cfg : ServerConfig),
       mcp_servers.lookup sk = some cfg →
       ∀ (cid u p : PyVal),
       NetOp.cognitoAuth cid u p ∈ (getMcpCredentials w sk).2 →
       ∃ fs, w.secrets (cfg.ssmBase.drop 1 ++ "/cognito/credentials") = .ok (pdict fs) ∧
         u = (pyLookup fs "username").getD (pstr "testuser") ∧
         p = (pyLookup fs "password").getD (pstr "MyPassword123!")) ∧
    (∀ (w : McpWorld) (sw : SessionWorld) (sk : String)
       (body : Except String PyVal × List NetOp),
       ∃ rest, (connectToMcp w sw sk body).2.1 = (getMcpCredentials w sk).2 ++ rest) :=
  ⟨seq_invocations_get,
   fun w um msgs sid cid u p hmem =>
     getFreshToken_current_secret w cid u p (invokeAgentB_auth_mem w um msgs sid cid u p hmem),
   fun w sk cfg hl cid u p hmem =>
     getMcpCredentials_current_secret w sk cfg hl cid u p hmem,
   connectToMcp_ops⟩

/-- The demo Bedrock environment after a secret rotation: same layout,
rotated password and fresh call id. -/
def demoAwsWorld2 : AwsWorld :=
  ⟨"fresh-uuid-2",
   fun _ => .ok "arn:aws:bedrock:us-east-1:123:runtime/x",
   fun _ => .ok (pdict [("client_id", pstr "cid"), ("username", pstr "u"),
                        ("password", pstr "pw2")]),
   fun _ _ _ => .ok "tok2",
   fun _ _ => .ok (200, pstr "hello")⟩

/-- C2 witness: in the two-call sequence with the secret rotated between
calls, the second call is resolved from the rotated world, and the
password grant of a concrete invocation carries the current secret's
password. -/
theorem credential_resolution_fresh_witness :
    (([demoAwsWorld, demoAwsWorld2].map fun w => invokeAgentB w (some "hi") none none).get
        ⟨1, by simp⟩ = invokeAgentB demoAwsWorld2 (some "hi") none none) ∧
    ∃ fs, demoAwsWorld2.secrets agentSecretName = .ok (pdict fs) ∧
      pstr "u" = (pyLookup fs "username").getD (pstr "testuser") ∧
      pstr "pw2" = (pyLookup fs "password").getD (pstr "MyPassword123!") := by
  constructor
  · exact credential_resolution_fresh.1 [demoAwsWorld, demoAwsWorld2] (some "hi") none none 1
      (by simp) (by simp)
  · refine credential_resolution_fresh.2.1 demoAwsWorld2 (some "hi") none none
      (pstr "cid") (pstr "u") (pstr "pw2") ?_
    have h : (invokeAgentB demoAwsWorld2 (some "hi") none none).2
        = [.ssmGet agentArnParam, .secretGet agentSecretName,
           .cognitoAuth (pstr "cid") (pstr "u") (pstr "pw2"),
           .httpPost (bedrockInvokeUrl "arn:aws:bedrock:us-east-1:123:runtime/x")
             (bedrockHeaders "tok2") (pdict [("prompt", pstr "hi")])] := rfl
    rw [h]
    exact List.mem_cons.mpr (Or.inr (List.mem_cons.mpr (Or.inr (List.mem_cons.mpr (Or.inl rfl)))))

/-- C6 counterexample: the direct MCP client path (`connect_to_mcp`)
sends no `Accept: application/json, text/event-stream` header at all —
its header dict holds only lowercase `authorization` and `Content-Type` —
while the local agent path does send `Accept`; so it is false that every
MCP transport connection carries both content-negotiation headers. -/
theorem mcp_headers_counterexample :
    (connectHeaders "tok").lookup "Accept" = none ∧
    connectHeaders "tok" = [("authorization", "Bearer tok"), ("Content-Type", "application/json")] ∧
    localAgentMcpHeaders.lookup "Accept" = some "application/json, text/event-stream" :=
  ⟨rfl, rfl, rfl⟩

/-- C6 amended: the local and cloud agent MCP connections send
`Content-Type: application/json` and `Accept: application/json,
text/event-stream`, with `Authorization: Bearer <token>` added exactly in
cloud mode; the direct MCP client path instead sends only
`authorization: Bearer <token>` and `Content-Type`, omitting `Accept`. -/
theorem mcp_headers_amended :
    ∀ bearer_token : String,
      localAgentMcpHeaders.lookup "Content-Type" = some "application/json" ∧
      localAgentMcpHeaders.lookup "Accept" = some "application/json, text/event-stream" ∧
      localAgentMcpHeaders.lookup "Authorization" = none ∧
      (cloudAgentMcpHeaders bearer_token).lookup "Content-Type" = some "application/json" ∧
      (cloudAgentMcpHeaders bearer_token).lookup "Accept" = some "application/json, text/event-stream" ∧
      (cloudAgentMcpHeaders bearer_token).lookup "Authorization" = some ("Bearer " ++ bearer_token) ∧
      (connectHeaders bearer_token).lookup "authorization" = some ("Bearer " ++ bearer_token) ∧
      (connectHeaders bearer_token).lookup "Content-Type" = some "application/json" ∧
      (connectHeaders bearer_token).lookup "Accept" = none := by
  intro bearer_token
  refine ⟨rfl, rfl, rfl, rfl, rfl, rfl, rfl, rfl, rfl⟩

/-- C9: an unknown server key makes `_get_mcp_credentials` raise
`ValueError` before any network operation (empty operation trace): no
parameter fetch, no secret fetch, no Cognito exchange. -/
theorem unknown_server_key_fails_fast :
    ∀ (w : McpWorld) (sk : String),
      sk ≠ "udm" → sk ≠ "edge_server" → sk ≠ "ai_service" →
      getMcpCredentials w sk = (.error ("Unknown MCP server: " ++ sk), []) := by
  intro w sk h1 h2 h3
  unfold getMcpCredentials
  have l1 : (sk == "udm") = false := by simpa using h1
  have l2 : (sk == "edge_server") = false := by simpa using h2
  have l3 : (sk == "ai_service") = false := by simpa using h3
  simp [mcp_servers, List.lookup, l1, l2, l3]

/-- C9 witness: the unknown key `"bogus"` fails fast with no network
steps. -/
theorem unknown_server_key_fails_fast_witness :
    getMcpCredentials demoMcpWorld "bogus" = (.error ("Unknown MCP server: " ++ "bogus"), []) :=
  unknown_server_key_fails_fast demoMcpWorld "bogus" (by decide) (by decide) (by decide)

end AwsBackend
